import Mathlib

/-!
Verification development for the reaction-cut repository.

Part 1 models the SQLite schema (`PRAGMA foreign_keys ...` DDL file) as data:
each `CREATE TABLE` becomes a `TableSchema` value listing its columns (with
NOT NULL flags and DEFAULT values), its primary key and its UNIQUE
constraints, together with a generic checker `tableOk` saying when a list of
rows conforms to a table's constraints.  SQLite's UNIQUE semantics are used:
two distinct rows violate a UNIQUE constraint only if they agree on all
constrained columns with non-NULL values.

Part 2 models the frontend functions cited by the claims (validation,
normalisation, command dispatch) as Lean functions, and Part 3 proves the
claims.
-/

namespace ReactionCut

/-- A SQLite value: NULL, INTEGER, REAL (modelled as `Rat`) or TEXT. -/
inductive SqlValue where
  | null
  | int (i : Int)
  | real (q : Rat)
  | text (s : String)
deriving DecidableEq, Repr

/-- A row is an association list from column names to values. -/
abbrev Row := List (String × SqlValue)

/-- The value of column `c` in row `r`; a column that is not present reads as NULL. -/
def lookupCol (r : Row) (c : String) : SqlValue :=
  match r.find? (fun p => p.1 == c) with
  | some p => p.2
  | none => SqlValue.null

/-- One column of a `CREATE TABLE` statement. -/
structure ColumnDef where
  name : String
  notNull : Bool := false
  dflt : Option SqlValue := none
deriving DecidableEq, Repr

/-- The constraint content of one `CREATE TABLE` statement.
Foreign keys and indexes are not modelled; a plain `CREATE INDEX` adds no
uniqueness constraint. -/
structure TableSchema where
  columns : List ColumnDef
  primaryKey : List String
  uniques : List (List String)
deriving DecidableEq, Repr

/-- SQLite UNIQUE conflict between two rows on the columns `cols`:
all constrained values agree and are non-NULL (NULLs are pairwise distinct). -/
def rowsConflictOn (cols : List String) (r1 r2 : Row) : Bool :=
  cols.all (fun c =>
    decide (lookupCol r1 c = lookupCol r2 c) && decide (lookupCol r1 c ≠ SqlValue.null))

/-- No two rows at distinct positions conflict on `cols`. -/
def pairwiseOk (cols : List String) : List Row → Bool
  | [] => true
  | r :: rs => rs.all (fun r2 => !(rowsConflictOn cols r r2)) && pairwiseOk cols rs

/-- A list of rows conforms to a table schema: NOT NULL columns are non-NULL
in every row, and the primary key and every UNIQUE constraint hold. -/
def tableOk (t : TableSchema) (rows : List Row) : Bool :=
  rows.all (fun r =>
      t.columns.all (fun c => !c.notNull || decide (lookupCol r c.name ≠ SqlValue.null))) &&
  (t.primaryKey :: t.uniques).all (fun cols => pairwiseOk cols rows)

/-- The row a fresh `INSERT` produces for the columns it does not mention:
every column holds its DEFAULT value, or NULL when the DDL gives none. -/
def defaultRow (t : TableSchema) : Row :=
  t.columns.map (fun c => (c.name, c.dflt.getD SqlValue.null))

/-- `CREATE TABLE anchor` from the schema file. -/
def anchor : TableSchema where
  columns := [
    { name := "id", notNull := true },
    { name := "uid", notNull := true },
    { name := "nickname" },
    { name := "live_status", dflt := some (.int 0) },
    { name := "last_check_time" },
    { name := "create_time", notNull := true },
    { name := "update_time", notNull := true }]
  primaryKey := ["id"]
  uniques := [["uid"]]

/-- `CREATE TABLE live_room_settings` from the schema file. -/
def live_room_settings : TableSchema where
  columns := [
    { name := "room_id", notNull := true },
    { name := "auto_record", notNull := true, dflt := some (.int 1) },
    { name := "update_time", notNull := true }]
  primaryKey := ["room_id"]
  uniques := []

/-- `CREATE TABLE live_record_task` from the schema file.  The only index on
it, `idx_live_record_task_room_id`, is a plain (non-unique) index. -/
def live_record_task : TableSchema where
  columns := [
    { name := "id", notNull := true },
    { name := "room_id", notNull := true },
    { name := "status", notNull := true },
    { name := "file_path", notNull := true },
    { name := "segment_index", notNull := true },
    { name := "start_time", notNull := true },
    { name := "end_time" },
    { name := "file_size", dflt := some (.int 0) },
    { name := "title" },
    { name := "error_message" },
    { name := "create_time", notNull := true },
    { name := "update_time", notNull := true }]
  primaryKey := ["id"]
  uniques := []

/-- `CREATE TABLE workflow_steps` from the schema file, including its
`UNIQUE (instance_id, step_order)` table constraint. -/
def workflow_steps : TableSchema where
  columns := [
    { name := "step_id", notNull := true },
    { name := "instance_id", notNull := true },
    { name := "step_name", notNull := true },
    { name := "step_type", notNull := true },
    { name := "step_order", notNull := true },
    { name := "status", notNull := true, dflt := some (.text "PENDING") },
    { name := "progress", dflt := some (.real 0) },
    { name := "input_data" },
    { name := "output_data" },
    { name := "error_message" },
    { name := "retry_count", dflt := some (.int 0) },
    { name := "max_retries", dflt := some (.int 3) },
    { name := "started_at" },
    { name := "completed_at" },
    { name := "created_at", notNull := true },
    { name := "updated_at", notNull := true }]
  primaryKey := ["step_id"]
  uniques := [["instance_id", "step_order"]]

/-- `CREATE TABLE merged_video` from the schema file. -/
def merged_video : TableSchema where
  columns := [
    { name := "id", notNull := true },
    { name := "task_id", notNull := true },
    { name := "file_name" },
    { name := "video_path" },
    { name := "duration" },
    { name := "status", dflt := some (.int 0) },
    { name := "upload_progress", dflt := some (.real 0) },
    { name := "upload_uploaded_bytes", dflt := some (.int 0) },
    { name := "upload_total_bytes", dflt := some (.int 0) },
    { name := "upload_cid" },
    { name := "upload_file_name" },
    { name := "upload_session_id" },
    { name := "upload_biz_id", dflt := some (.int 0) },
    { name := "upload_endpoint" },
    { name := "upload_auth" },
    { name := "upload_uri" },
    { name := "upload_chunk_size", dflt := some (.int 0) },
    { name := "upload_last_part_index", dflt := some (.int 0) },
    { name := "create_time", notNull := true },
    { name := "update_time", notNull := true }]
  primaryKey := ["id"]
  uniques := []

/-- `CREATE TABLE task_output_segment` from the schema file. -/
def task_output_segment : TableSchema where
  columns := [
    { name := "segment_id", notNull := true },
    { name := "task_id", notNull := true },
    { name := "part_name", notNull := true },
    { name := "segment_file_path", notNull := true },
    { name := "part_order", notNull := true },
    { name := "upload_status", notNull := true },
    { name := "cid" },
    { name := "file_name" },
    { name := "upload_progress", dflt := some (.real 0) },
    { name := "upload_uploaded_bytes", dflt := some (.int 0) },
    { name := "upload_total_bytes", dflt := some (.int 0) },
    { name := "upload_session_id" },
    { name := "upload_biz_id", dflt := some (.int 0) },
    { name := "upload_endpoint" },
    { name := "upload_auth" },
    { name := "upload_uri" },
    { name := "upload_chunk_size", dflt := some (.int 0) },
    { name := "upload_last_part_index", dflt := some (.int 0) }]
  primaryKey := ["segment_id"]
  uniques := []

lemma conflictAt_symm (a b : SqlValue) :
    (decide (a = b) && decide (a ≠ SqlValue.null))
      = (decide (b = a) && decide (b ≠ SqlValue.null)) := by
  by_cases h : a = b
  · subst h; rfl
  · have h' : ¬(b = a) := fun e => h e.symm
    simp [h, h']

lemma rowsConflictOn_symm (cols : List String) (r1 r2 : Row) :
    rowsConflictOn cols r1 r2 = rowsConflictOn cols r2 r1 := by
  unfold rowsConflictOn
  induction cols with
  | nil => rfl
  | cons c cs ih =>
    simp only [List.all_cons]
    rw [conflictAt_symm, ih]

lemma pairwiseOk_spec {cols : List String} {rows : List Row}
    (h : pairwiseOk cols rows = true) :
    ∀ r1 ∈ rows, ∀ r2 ∈ rows, r1 ≠ r2 → rowsConflictOn cols r1 r2 = false := by
  induction rows with
  | nil => intro r1 h1; simp at h1
  | cons r rs ih =>
    rw [pairwiseOk, Bool.and_eq_true, List.all_eq_true] at h
    intro r1 h1 r2 h2 hne
    cases h1 with
    | head =>
      cases h2 with
      | head => exact absurd rfl hne
      | tail _ h2 => simpa using h.1 r2 h2
    | tail _ h1 =>
      cases h2 with
      | head =>
        rw [rowsConflictOn_symm]
        simpa using h.1 r1 h1
      | tail _ h2 => exact ih h.2 r1 h1 r2 h2 hne

lemma tableOk_unique {t : TableSchema} {rows : List Row}
    (h : tableOk t rows = true) {cols : List String}
    (hc : cols ∈ t.primaryKey :: t.uniques) : pairwiseOk cols rows = true := by
  simp only [tableOk, Bool.and_eq_true, List.all_eq_true] at h
  exact h.2 cols hc

lemma tableOk_notNull {t : TableSchema} {rows : List Row}
    (h : tableOk t rows = true) {r : Row} (hr : r ∈ rows)
    {c : ColumnDef} (hc : c ∈ t.columns) (hn : c.notNull = true) :
    lookupCol r c.name ≠ SqlValue.null := by
  simp only [tableOk, Bool.and_eq_true, List.all_eq_true] at h
  have := h.1 r hr c hc
  rw [hn] at this
  simpa using this

/-- A conforming `workflow_steps` row: all NOT NULL columns filled. -/
def wsRowA : Row :=
  [("step_id", .text "s1"), ("instance_id", .text "wf1"), ("step_name", .text "CLIP"),
   ("step_type", .text "CLIP"), ("step_order", .int 1), ("status", .text "PENDING"),
   ("created_at", .text "t0"), ("updated_at", .text "t0")]

/-- A second conforming `workflow_steps` row of the same instance. -/
def wsRowB : Row :=
  [("step_id", .text "s2"), ("instance_id", .text "wf1"), ("step_name", .text "MERGE"),
   ("step_type", .text "MERGE"), ("step_order", .int 2), ("status", .text "PENDING"),
   ("created_at", .text "t0"), ("updated_at", .text "t0")]

/-- A conforming `live_record_task` row. -/
def lrRowA : Row :=
  [("id", .int 1), ("room_id", .text "12345"), ("status", .text "RECORDING"),
   ("file_path", .text "/rec/a.flv"), ("segment_index", .int 1),
   ("start_time", .text "t0"), ("create_time", .text "t0"), ("update_time", .text "t0")]

/-- A second conforming `live_record_task` row sharing room and segment index. -/
def lrRowB : Row :=
  [("id", .int 2), ("room_id", .text "12345"), ("status", .text "RECORDING"),
   ("file_path", .text "/rec/b.flv"), ("segment_index", .int 1),
   ("start_time", .text "t0"), ("create_time", .text "t0"), ("update_time", .text "t0")]

/-- C1: in any database state conforming to the `workflow_steps` schema, no two
distinct rows of the same workflow instance carry the same `step_order`; the
`UNIQUE (instance_id, step_order)` table constraint enforces this for every
pair of rows with equal `instance_id`. -/
theorem workflow_steps_step_order_unique_per_instance
    (rows : List Row) (h : tableOk workflow_steps rows = true)
    (r1 : Row) (h1 : r1 ∈ rows) (r2 : Row) (h2 : r2 ∈ rows) (hne : r1 ≠ r2)
    (hinst : lookupCol r1 "instance_id" = lookupCol r2 "instance_id") :
    lookupCol r1 "step_order" ≠ lookupCol r2 "step_order" := by
  have hpair : pairwiseOk ["instance_id", "step_order"] rows = true :=
    tableOk_unique h (by simp [workflow_steps])
  have hconf := pairwiseOk_spec hpair r1 h1 r2 h2 hne
  have hn1 : lookupCol r1 "instance_id" ≠ SqlValue.null :=
    tableOk_notNull h h1 (c := { name := "instance_id", notNull := true })
      (by simp [workflow_steps]) rfl
  have hn2 : lookupCol r1 "step_order" ≠ SqlValue.null :=
    tableOk_notNull h h1 (c := { name := "step_order", notNull := true })
      (by simp [workflow_steps]) rfl
  intro hord
  have htrue : rowsConflictOn ["instance_id", "step_order"] r1 r2 = true := by
    simp [rowsConflictOn, hinst, hord, hinst ▸ hn1, hord ▸ hn2]
  exact absurd (htrue.symm.trans hconf) (by decide)

/-- Witness for C1 on a concrete two-row conforming state. -/
theorem workflow_steps_step_order_unique_witness :
    lookupCol wsRowA "step_order" ≠ lookupCol wsRowB "step_order" :=
  workflow_steps_step_order_unique_per_instance [wsRowA, wsRowB] (by decide)
    wsRowA (by simp) wsRowB (by simp) (by decide) (by decide)

/-- C3 counterexample: the `live_record_task` schema has no uniqueness
constraint on `(room_id, segment_index)` — a state with two distinct rows
sharing that pair conforms to every constraint the persisted layout declares,
so the layout does not guarantee the claimed uniqueness. -/
theorem live_record_task_duplicate_pair_conforms :
    tableOk live_record_task [lrRowA, lrRowB] = true ∧
    lrRowA ≠ lrRowB ∧
    lookupCol lrRowA "room_id" = lookupCol lrRowB "room_id" ∧
    lookupCol lrRowA "segment_index" = lookupCol lrRowB "segment_index" ∧
    pairwiseOk ["room_id", "segment_index"] [lrRowA, lrRowB] = false := by decide

/-- C3 amended: the persisted layout guarantees only primary-key uniqueness of
`id` for `live_record_task`; it does not enforce uniqueness (hence not strict
increase) of `(room_id, segment_index)`, as a conforming duplicate shows. -/
theorem live_record_task_layout_guarantees_only_id :
    (∀ rows : List Row, tableOk live_record_task rows = true →
      ∀ r1 ∈ rows, ∀ r2 ∈ rows, r1 ≠ r2 →
        lookupCol r1 "id" ≠ lookupCol r2 "id") ∧
    (tableOk live_record_task [lrRowA, lrRowB] = true ∧
      pairwiseOk ["room_id", "segment_index"] [lrRowA, lrRowB] = false) := by
  constructor
  · intro rows h r1 h1 r2 h2 hne hid
    have hpair : pairwiseOk ["id"] rows = true :=
      tableOk_unique h (by simp [live_record_task])
    have hconf := pairwiseOk_spec hpair r1 h1 r2 h2 hne
    have hn1 : lookupCol r1 "id" ≠ SqlValue.null :=
      tableOk_notNull h h1 (c := { name := "id", notNull := true })
        (by simp [live_record_task]) rfl
    have htrue : rowsConflictOn ["id"] r1 r2 = true := by
      simp [rowsConflictOn, hid, hid ▸ hn1]
    exact absurd (htrue.symm.trans hconf) (by decide)
  · decide

/-- Witness for the amended C3 statement on a concrete conforming state. -/
theorem live_record_task_layout_guarantees_only_id_witness :
    lookupCol lrRowA "id" ≠ lookupCol lrRowB "id" :=
  live_record_task_layout_guarantees_only_id.1 [lrRowA, lrRowB] (by decide)
    lrRowA (by simp) lrRowB (by simp) (by decide)

/-- The column names the persisted layout devotes to a subscribed room:
the `anchor` table plus the per-room `live_room_settings` table. -/
def anchorLayoutColumnNames : List String :=
  (anchor.columns ++ live_room_settings.columns).map (fun c => c.name)

/-- Whether `needle` occurs as a contiguous run inside `hay`. -/
def hasInfixRun (needle : List Char) : List Char → Bool
  | [] => needle.isEmpty
  | c :: tl => needle.isPrefixOf (c :: tl) || hasInfixRun needle tl

/-- Whether a column name refers to the sync mirror (the frontend calls these
attributes `baiduSyncPath` / `baiduSyncEnabled`). -/
def mentionsSyncMirror (s : String) : Bool :=
  hasInfixRun "sync".data s.data || hasInfixRun "baidu".data s.data

/-- C7 counterexample: no column of the `anchor` or `live_room_settings`
tables mentions the sync mirror, so the persisted layout stores neither a
sync-mirror path nor a sync-mirror enabled flag for a subscribed room. -/
theorem anchor_layout_no_sync_mirror_columns :
    anchorLayoutColumnNames.any mentionsSyncMirror = false := by decide

/-- C7 amended: the persisted layout stores the room id (`uid`), display name
(`nickname`), live status, last-checked timestamp and the per-room auto-record
flag, but no sync-mirror path or sync-mirror enabled column. -/
theorem anchor_layout_attribute_set :
    "uid" ∈ anchorLayoutColumnNames ∧
    "nickname" ∈ anchorLayoutColumnNames ∧
    "live_status" ∈ anchorLayoutColumnNames ∧
    "last_check_time" ∈ anchorLayoutColumnNames ∧
    "auto_record" ∈ anchorLayoutColumnNames ∧
    anchorLayoutColumnNames.any mentionsSyncMirror = false := by decide

/-- A JavaScript `code` field on a command response: a number, or a value of
some other runtime type (for which `typeof code === "number"` is false). -/
inductive JsCode where
  | num (v : Int)
  | nonNumeric
deriving DecidableEq, Repr

/-- The object shape a Tauri command resolves with: optional `code` and
`message` fields and a `data` field. `none` at the call site models a
null/undefined response. -/
structure CommandResponse (α : Type) where
  code : Option JsCode
  message : Option String
  data : α

/-- JavaScript `m || d` on an optional string: `undefined` and the empty
string are falsy, any other string is returned unchanged. -/
def jsOrString (m : Option String) (d : String) : String :=
  match m with
  | none => d
  | some s => if s = "" then d else s

/-- `invokeCommand` from the tauri helper module: a missing response throws
`Empty response`, a numeric non-zero `code` throws `message || "Request
failed"`, and otherwise the response's `data` is returned. -/
def invokeCommand {α : Type} (response : Option (CommandResponse α)) : Except String α :=
  match response with
  | none => .error "Empty response"
  | some r =>
    match r.code with
    | some (.num v) => if v ≠ 0 then .error (jsOrString r.message "Request failed") else .ok r.data
    | _ => .ok r.data

/-- `canPause` from SubmissionSyncSection.jsx:
`["PENDING", "UPLOADING"].includes(task.status)`. -/
def canPause (status : String) : Bool :=
  (["PENDING", "UPLOADING"] : List String).contains status

/-- `canRetry` from SubmissionSyncSection.jsx:
`["FAILED", "CANCELLED", "PAUSED", "SUCCESS"].includes(task.status)`. -/
def canRetry (status : String) : Bool :=
  (["FAILED", "CANCELLED", "PAUSED", "SUCCESS"] : List String).contains status

/-- The `segmentationConfig` part of the DownloadSection `workflowConfig`
state. -/
structure SegmentationConfigState where
  segmentDurationSeconds : Int
  preserveOriginal : Bool
deriving DecidableEq, Repr

/-- The DownloadSection `workflowConfig` state. -/
structure WorkflowConfigState where
  segmentationConfig : SegmentationConfigState
deriving DecidableEq, Repr

/-- `defaultWorkflowConfig` from DownloadSection. -/
def defaultWorkflowConfig : WorkflowConfigState :=
  { segmentationConfig := { segmentDurationSeconds := 133, preserveOriginal := true } }

/-- The `segmentationConfig` object `buildWorkflowConfig` emits. -/
structure SegmentationConfigPayload where
  enabled : Bool
  segmentDurationSeconds : Int
  preserveOriginal : Bool
deriving DecidableEq, Repr

/-- The object `buildWorkflowConfig` emits into the submission payload. -/
structure WorkflowConfigPayload where
  enableSegmentation : Bool
  segmentationConfig : SegmentationConfigPayload
deriving DecidableEq, Repr

/-- `buildWorkflowConfig` from DownloadSection, as a function of the two
pieces of component state it reads. -/
def buildWorkflowConfig (segmentationEnabled : Bool)
    (workflowConfig : WorkflowConfigState) : WorkflowConfigPayload :=
  { enableSegmentation := segmentationEnabled,
    segmentationConfig :=
      { enabled := segmentationEnabled,
        segmentDurationSeconds := workflowConfig.segmentationConfig.segmentDurationSeconds,
        preserveOriginal := workflowConfig.segmentationConfig.preserveOriginal } }

/-- JavaScript `s.trim()`: strip leading and trailing whitespace.  Stated on
the character list so that proofs can evaluate it. -/
def jsTrim (s : String) : String :=
  ⟨((s.data.dropWhile Char.isWhitespace).reverse.dropWhile Char.isWhitespace).reverse⟩

/-- JavaScript `s.split(sep)` for a one-character separator, on the
underlying character list. -/
def splitOnCharList (sep : Char) : List Char → List (List Char)
  | [] => [[]]
  | c :: cs =>
    let rest := splitOnCharList sep cs
    if c = sep then [] :: rest
    else
      match rest with
      | [] => [[c]]
      | r :: rs => (c :: r) :: rs

/-- JavaScript `s.split(sep)` returning strings. -/
def jsSplit (sep : Char) (s : String) : List String :=
  (splitOnCharList sep s.data).map (fun cs => ⟨cs⟩)

/-- Digits-to-value accumulator for decimal numerals. -/
def digitsVal (cs : List Char) : Nat :=
  cs.foldl (fun a c => a * 10 + (c.toNat - '0'.toNat)) 0

/-- Unsigned decimal integer numeral. -/
def parseUnsignedDecimal (cs : List Char) : Option Int :=
  if cs.isEmpty || !cs.all Char.isDigit then none
  else some (digitsVal cs : Int)

/-- Fragment of the JavaScript `Number()` conversion applied to user-entered
strings: after trimming, the empty string is 0, an optionally signed integer
numeral is its value, and anything else is NaN (`none`).  The inputs the
claims quantify over (timecode components, concurrency counts, segment
durations) are integer numerals; fractional, exponent, hexadecimal and
infinity forms fall outside this fragment. -/
def jsNumberOfString (s : String) : Option Int :=
  let t := jsTrim s
  if t = "" then some 0
  else
    match t.data with
    | '-' :: cs => (parseUnsignedDecimal cs).map (fun v => -v)
    | '+' :: cs => parseUnsignedDecimal cs
    | cs => parseUnsignedDecimal cs

/-- JavaScript `x || d` on a number: NaN (`none`) and 0 are falsy. -/
def jsOrNumber (x : Option Int) (d : Int) : Int :=
  match x with
  | none => d
  | some v => if v = 0 then d else v

/-- `normalizedUploadConcurrency` from `handleSave` in SettingsSection.jsx:
`Math.min(5, Math.max(1, Number(uploadConcurrency) || 1))`. -/
def normalizedUploadConcurrency (uploadConcurrency : String) : Int :=
  min 5 (max 1 (jsOrNumber (jsNumberOfString uploadConcurrency) 1))

/-- `normalizedAria2cConnections` from `handleSave` in SettingsSection.jsx:
`Math.min(32, Math.max(1, Number(aria2cConnections) || 1))`. -/
def normalizedAria2cConnections (aria2cConnections : String) : Int :=
  min 32 (max 1 (jsOrNumber (jsNumberOfString aria2cConnections) 1))

/-- `normalizedAria2cSplit` from `handleSave` in SettingsSection.jsx:
`Math.min(32, Math.max(1, Number(aria2cSplit) || 1))`. -/
def normalizedAria2cSplit (aria2cSplit : String) : Int :=
  min 32 (max 1 (jsOrNumber (jsNumberOfString aria2cSplit) 1))

/-- `timeToSeconds` from DownloadSection: split on `:`, convert the parts
with `Number`, return 0 unless there are exactly three numeric parts, else
`h*3600 + m*60 + s`. -/
def timeToSeconds (value : String) : Int :=
  if value = "" then 0
  else
    let parts := (jsSplit ':' value).map jsNumberOfString
    if parts.length ≠ 3 ∨ parts.any (fun p => p.isNone) = true then 0
    else
      ((parts.getD 0 none).getD 0) * 3600 + ((parts.getD 1 none).getD 0) * 60 +
        (parts.getD 2 none).getD 0

/-- Character class `[0-5]`. -/
def isDigit05 (c : Char) : Bool := decide ('0' ≤ c) && decide (c ≤ '5')

/-- The regex `^([0-1]?[0-9]|2[0-3]):[0-5][0-9]:[0-5][0-9]$` from
`isValidTimeFormat`: hour 0-23 written with one or two digits, then
two-digit minutes 00-59 and seconds 00-59. -/
def matchesHmsPattern (s : String) : Bool :=
  match s.data with
  | [h, ':', m1, m2, ':', s1, s2] =>
      h.isDigit && isDigit05 m1 && m2.isDigit && isDigit05 s1 && s2.isDigit
  | [h1, h2, ':', m1, m2, ':', s1, s2] =>
      (((h1 == '0' || h1 == '1') && h2.isDigit) ||
        ((h1 == '2') && decide ('0' ≤ h2) && decide (h2 ≤ '3'))) &&
      isDigit05 m1 && m2.isDigit && isDigit05 s1 && s2.isDigit
  | _ => false

/-- `isValidTimeFormat` from DownloadSection: the empty (falsy) value passes,
otherwise the value must match the HH:MM:SS regex. -/
def isValidTimeFormat (value : String) : Bool :=
  if value = "" then true else matchesHmsPattern value

/-- The result object `validateIntegrationForm` returns. -/
structure ValidationResult where
  valid : Bool
  message : Option String := none
deriving DecidableEq, Repr

/-- One entry of `selectedPartsConfig`: the fields the validation reads. -/
structure PartConfig where
  startTime : String
  endTime : String
deriving DecidableEq, Repr

/-- The `downloadConfig` fields the validation reads. -/
structure DownloadConfigState where
  resolution : String
  codec : String
  format : String
deriving DecidableEq, Repr

/-- The `submissionConfig` fields the validation reads. -/
structure SubmissionConfigState where
  title : String
  description : String
  partitionId : String
  videoType : String
deriving DecidableEq, Repr

/-- The DownloadSection component state `validateIntegrationForm` reads. -/
structure IntegrationForm where
  selectedCount : Nat
  downloadConfig : DownloadConfigState
  submissionConfig : SubmissionConfigState
  tags : List String
  tagInput : String
  segmentationEnabled : Bool
  workflowConfig : WorkflowConfigState
  selectedPartsConfig : List PartConfig
deriving DecidableEq, Repr

/-- The `for` loop over `selectedPartsConfig` at the end of
`validateIntegrationForm`, with its early returns; `index` only feeds the
error messages. -/
def validateSelectedParts : Nat → List PartConfig → ValidationResult
  | _, [] => { valid := true }
  | index, part :: rest =>
    if isValidTimeFormat part.startTime = false then
      { valid := false,
        message := some ("第" ++ toString (index + 1) ++ "个分P的开始时间格式不正确，请使用 HH:MM:SS") }
    else if isValidTimeFormat part.endTime = false then
      { valid := false,
        message := some ("第" ++ toString (index + 1) ++ "个分P的结束时间格式不正确，请使用 HH:MM:SS") }
    else if part.startTime ≠ "" ∧ part.endTime ≠ "" then
      if timeToSeconds part.endTime ≤ timeToSeconds part.startTime then
        { valid := false,
          message := some ("第" ++ toString (index + 1) ++ "个分P的开始时间必须小于结束时间") }
      else validateSelectedParts (index + 1) rest
    else validateSelectedParts (index + 1) rest

/-- `validateIntegrationForm` from DownloadSection, check for check in source
order. -/
def validateIntegrationForm (f : IntegrationForm) : ValidationResult :=
  if f.selectedCount = 0 then { valid := false, message := some "请至少选择一个分P" }
  else if f.downloadConfig.resolution = "" then { valid := false, message := some "请选择分辨率" }
  else if f.downloadConfig.codec = "" then { valid := false, message := some "请选择编码格式" }
  else if f.downloadConfig.format = "" then { valid := false, message := some "请选择流媒体格式" }
  else if jsTrim f.submissionConfig.title = "" then { valid := false, message := some "请输入视频标题" }
  else if 80 < f.submissionConfig.title.length then
    { valid := false, message := some "视频标题不能超过 80 个字符" }
  else if f.submissionConfig.partitionId = "" then { valid := false, message := some "请选择视频分区" }
  else if f.submissionConfig.videoType = "" then { valid := false, message := some "请选择视频类型" }
  else if f.submissionConfig.description ≠ "" ∧ 2000 < f.submissionConfig.description.length then
    { valid := false, message := some "视频描述不能超过 2000 个字符" }
  else
    let normalizedTags :=
      if jsTrim f.tagInput ≠ "" then f.tags ++ [jsTrim f.tagInput] else f.tags
    let uniqueTags := normalizedTags.eraseDups
    if uniqueTags.length = 0 then { valid := false, message := some "请填写至少一个投稿标签" }
    else if f.segmentationEnabled then
      if f.workflowConfig.segmentationConfig.segmentDurationSeconds < 30 ∨
          600 < f.workflowConfig.segmentationConfig.segmentDurationSeconds then
        { valid := false, message := some "分段时长必须在 30-600 秒之间" }
      else validateSelectedParts 0 f.selectedPartsConfig
    else validateSelectedParts 0 f.selectedPartsConfig

/-- The upload-progress columns of a `merged_video` / `task_output_segment`
row. -/
structure UploadProgress where
  uploadedBytes : Int
  totalBytes : Int
deriving DecidableEq, Repr

/-- Reads the two byte columns of a row (0 for a non-INTEGER value, as the
frontend does when rendering progress). -/
def uploadProgressOfRow (r : Row) : UploadProgress :=
  { uploadedBytes :=
      match lookupCol r "upload_uploaded_bytes" with
      | .int i => i
      | _ => 0,
    totalBytes :=
      match lookupCol r "upload_total_bytes" with
      | .int i => i
      | _ => 0 }

/-- Modelled from the spec: the Upload Manager that writes these columns is
in the Rust backend, which is not among the sources; only its schema is.
Per the spec it negotiates a session (persisting the artifact's total size
and restarting the uploaded count), advances the uploaded byte count by one
successful chunk at a time (chunks partition the file, so a successful chunk
never pushes the count past the total), and resets the count to zero on an
explicit retry. -/
inductive UploadOp where
  | negotiate (totalBytes : Nat)
  | chunkDone (bytes : Nat)
  | retryReset
deriving DecidableEq, Repr

/-- Modelled from the spec: effect of one Upload Manager operation on the two
byte columns. -/
def applyUploadOp (s : UploadProgress) : UploadOp → UploadProgress
  | .negotiate t => { uploadedBytes := 0, totalBytes := (t : Int) }
  | .chunkDone n =>
      if s.uploadedBytes + (n : Int) ≤ s.totalBytes then
        { s with uploadedBytes := s.uploadedBytes + (n : Int) }
      else s
  | .retryReset => { s with uploadedBytes := 0 }

lemma applyUploadOp_inv {s : UploadProgress}
    (h : 0 ≤ s.uploadedBytes ∧ s.uploadedBytes ≤ s.totalBytes ∧ 0 ≤ s.totalBytes)
    (op : UploadOp) :
    0 ≤ (applyUploadOp s op).uploadedBytes ∧
    (applyUploadOp s op).uploadedBytes ≤ (applyUploadOp s op).totalBytes ∧
    0 ≤ (applyUploadOp s op).totalBytes := by
  rcases op with t | n | _
  · simp only [applyUploadOp]
    refine ⟨le_refl 0, Int.natCast_nonneg t, Int.natCast_nonneg t⟩
  · simp only [applyUploadOp]
    split_ifs with hle
    · obtain ⟨h1, h2, h3⟩ := h
      refine ⟨?_, ?_, ?_⟩ <;> dsimp only <;> omega
    · exact h
  · simp only [applyUploadOp]
    exact ⟨le_refl 0, h.2.2, h.2.2⟩

lemma foldl_applyUploadOp_inv (ops : List UploadOp) :
    ∀ s : UploadProgress,
      0 ≤ s.uploadedBytes ∧ s.uploadedBytes ≤ s.totalBytes ∧ 0 ≤ s.totalBytes →
      0 ≤ (ops.foldl applyUploadOp s).uploadedBytes ∧
      (ops.foldl applyUploadOp s).uploadedBytes ≤ (ops.foldl applyUploadOp s).totalBytes ∧
      0 ≤ (ops.foldl applyUploadOp s).totalBytes := by
  induction ops with
  | nil => intro s h; exact h
  | cons op rest ih =>
    intro s h
    exact ih (applyUploadOp s op) (applyUploadOp_inv h op)

/-- C2: starting from the schema's column defaults for a fresh `merged_video`
or `task_output_segment` row (`upload_uploaded_bytes`/`upload_total_bytes`
both default 0), every sequence of Upload Manager operations (modelled from
the spec, since the Rust upload code is not among the sources) keeps
`upload_uploaded_bytes ≤ upload_total_bytes`. -/
theorem upload_uploaded_le_total (ops : List UploadOp) :
    (ops.foldl applyUploadOp (uploadProgressOfRow (defaultRow merged_video))).uploadedBytes ≤
      (ops.foldl applyUploadOp (uploadProgressOfRow (defaultRow merged_video))).totalBytes ∧
    (ops.foldl applyUploadOp (uploadProgressOfRow (defaultRow task_output_segment))).uploadedBytes ≤
      (ops.foldl applyUploadOp (uploadProgressOfRow (defaultRow task_output_segment))).totalBytes := by
  have hm : uploadProgressOfRow (defaultRow merged_video) = ⟨0, 0⟩ := by decide
  have hs : uploadProgressOfRow (defaultRow task_output_segment) = ⟨0, 0⟩ := by decide
  rw [hm, hs]
  have h0 : 0 ≤ (⟨0, 0⟩ : UploadProgress).uploadedBytes ∧
      (⟨0, 0⟩ : UploadProgress).uploadedBytes ≤ (⟨0, 0⟩ : UploadProgress).totalBytes ∧
      0 ≤ (⟨0, 0⟩ : UploadProgress).totalBytes := by
    refine ⟨le_refl 0, le_refl 0, le_refl 0⟩
  exact ⟨(foldl_applyUploadOp_inv ops _ h0).2.1, (foldl_applyUploadOp_inv ops _ h0).2.1⟩

/-- Witness for C2 on a concrete operation sequence. -/
theorem upload_uploaded_le_total_witness :
    (([.negotiate 10, .chunkDone 4] : List UploadOp).foldl applyUploadOp
        (uploadProgressOfRow (defaultRow merged_video))).uploadedBytes ≤
      (([.negotiate 10, .chunkDone 4] : List UploadOp).foldl applyUploadOp
        (uploadProgressOfRow (defaultRow merged_video))).totalBytes :=
  (upload_uploaded_le_total [.negotiate 10, .chunkDone 4]).1

/-- C4: the workflow-configuration payload built for an integrated
download+submission round-trips the toggle set unchanged: `enableSegmentation`
and `segmentationConfig.enabled` both equal the UI toggle, and the segment
duration and preserve flag equal the configured state. -/
theorem buildWorkflowConfig_round_trip (segmentationEnabled : Bool)
    (workflowConfig : WorkflowConfigState) :
    (buildWorkflowConfig segmentationEnabled workflowConfig).enableSegmentation =
        segmentationEnabled ∧
    (buildWorkflowConfig segmentationEnabled workflowConfig).segmentationConfig.enabled =
        segmentationEnabled ∧
    (buildWorkflowConfig segmentationEnabled
          workflowConfig).segmentationConfig.segmentDurationSeconds =
        workflowConfig.segmentationConfig.segmentDurationSeconds ∧
    (buildWorkflowConfig segmentationEnabled workflowConfig).segmentationConfig.preserveOriginal =
        workflowConfig.segmentationConfig.preserveOriginal :=
  ⟨rfl, rfl, rfl, rfl⟩

/-- Witness for C4 at the component's default configuration. -/
theorem buildWorkflowConfig_round_trip_witness :
    (buildWorkflowConfig false defaultWorkflowConfig).enableSegmentation = false ∧
    (buildWorkflowConfig false defaultWorkflowConfig).segmentationConfig.enabled = false ∧
    (buildWorkflowConfig false defaultWorkflowConfig).segmentationConfig.segmentDurationSeconds =
        defaultWorkflowConfig.segmentationConfig.segmentDurationSeconds ∧
    (buildWorkflowConfig false defaultWorkflowConfig).segmentationConfig.preserveOriginal =
        defaultWorkflowConfig.segmentationConfig.preserveOriginal :=
  buildWorkflowConfig_round_trip false defaultWorkflowConfig

/-- C5: in the sync list, the pause action is offered exactly for PENDING and
UPLOADING tasks, and the retry action exactly for FAILED, CANCELLED, PAUSED
and SUCCESS tasks. -/
theorem sync_action_gates (status : String) :
    (canPause status = true ↔ status = "PENDING" ∨ status = "UPLOADING") ∧
    (canRetry status = true ↔
      status = "FAILED" ∨ status = "CANCELLED" ∨ status = "PAUSED" ∨ status = "SUCCESS") := by
  constructor
  · simp [canPause, List.contains]
  · simp [canRetry, List.contains]

/-- Witness for C5 at two concrete statuses. -/
theorem sync_action_gates_witness :
    canPause "UPLOADING" = true ∧ canRetry "PAUSED" = true :=
  ⟨(sync_action_gates "UPLOADING").1.mpr (Or.inr rfl),
    (sync_action_gates "PAUSED").2.mpr (Or.inr (Or.inr (Or.inl rfl)))⟩

/-- C8: `invokeCommand` raises an error when the response is absent or
carries a numeric non-zero `code` (using the response's message when a
non-empty one is present, else `Request failed`), and otherwise returns the
response's `data`. -/
theorem invokeCommand_contract {α : Type} (r : Option (CommandResponse α)) :
    (r = none → invokeCommand r = .error "Empty response") ∧
    (∀ resp : CommandResponse α, r = some resp →
      ∀ v : Int, resp.code = some (.num v) → v ≠ 0 →
        invokeCommand r = .error (jsOrString resp.message "Request failed") ∧
          ∀ m, resp.message = some m → m ≠ "" → invokeCommand r = .error m) ∧
    (∀ resp : CommandResponse α, r = some resp →
      (∀ v : Int, resp.code = some (.num v) → v = 0) →
      invokeCommand r = .ok resp.data) := by
  refine ⟨?_, ?_, ?_⟩
  · rintro rfl; rfl
  · rintro resp rfl v hv hne
    refine ⟨by simp [invokeCommand, hv, hne], ?_⟩
    intro m hm hm0
    simp [invokeCommand, hv, hne, jsOrString, hm, hm0]
  · rintro resp rfl hz
    rcases hc : resp.code with _ | code
    · simp [invokeCommand, hc]
    · rcases code with v | _
      · have hv0 : v = 0 := hz v hc
        simp [invokeCommand, hc, hv0]
      · simp [invokeCommand, hc]

/-- A concrete failing backend response. -/
def boomResponse : CommandResponse Nat :=
  { code := some (JsCode.num 2), message := some "boom", data := 0 }

/-- Witness for C8 on a concrete failing response. -/
theorem invokeCommand_contract_witness :
    invokeCommand (some boomResponse) = .error "boom" :=
  ((invokeCommand_contract (some boomResponse)).2.1 boomResponse rfl 2 rfl
    (by decide)).2 "boom" rfl (by decide)

lemma clampInt_spec (lo hi : Int) (hlohi : lo ≤ hi) (x : Int) :
    lo ≤ min hi (max lo x) ∧ min hi (max lo x) ≤ hi ∧
    (x < lo → min hi (max lo x) = lo) ∧
    (lo ≤ x → x ≤ hi → min hi (max lo x) = x) := by
  refine ⟨le_min hlohi (le_max_left lo x), min_le_left hi _, ?_, ?_⟩
  · intro hx
    rw [max_eq_left hx.le, min_eq_right hlohi]
  · intro h1 h2
    rw [max_eq_right h1, min_eq_right h2]

/-- C10: the settings save normalizes `uploadConcurrency` into `[1, 5]` and
the two aria2c tunables into `[1, 32]`; non-numeric input, and any value
below 1 (including the falsy 0), becomes the lower bound 1, while in-range
values pass through unchanged. -/
theorem settings_save_clamps (s : String) :
    (1 ≤ normalizedUploadConcurrency s ∧ normalizedUploadConcurrency s ≤ 5) ∧
    (1 ≤ normalizedAria2cConnections s ∧ normalizedAria2cConnections s ≤ 32) ∧
    (1 ≤ normalizedAria2cSplit s ∧ normalizedAria2cSplit s ≤ 32) ∧
    (jsNumberOfString s = none →
      normalizedUploadConcurrency s = 1 ∧ normalizedAria2cConnections s = 1 ∧
        normalizedAria2cSplit s = 1) ∧
    (∀ v : Int, jsNumberOfString s = some v → v < 1 →
      normalizedUploadConcurrency s = 1 ∧ normalizedAria2cConnections s = 1 ∧
        normalizedAria2cSplit s = 1) ∧
    (∀ v : Int, jsNumberOfString s = some v → 1 ≤ v → v ≤ 5 →
      normalizedUploadConcurrency s = v) ∧
    (∀ v : Int, jsNumberOfString s = some v → 1 ≤ v → v ≤ 32 →
      normalizedAria2cConnections s = v ∧ normalizedAria2cSplit s = v) := by
  have h5 : (1 : Int) ≤ 5 := by norm_num
  have h32 : (1 : Int) ≤ 32 := by norm_num
  unfold normalizedUploadConcurrency normalizedAria2cConnections normalizedAria2cSplit
  refine ⟨⟨(clampInt_spec 1 5 h5 _).1, (clampInt_spec 1 5 h5 _).2.1⟩,
    ⟨(clampInt_spec 1 32 h32 _).1, (clampInt_spec 1 32 h32 _).2.1⟩,
    ⟨(clampInt_spec 1 32 h32 _).1, (clampInt_spec 1 32 h32 _).2.1⟩, ?_, ?_, ?_, ?_⟩
  · intro hn
    rw [hn]
    have h1 : jsOrNumber none 1 = 1 := rfl
    rw [h1]
    exact ⟨(clampInt_spec 1 5 h5 1).2.2.2 le_rfl h5,
      (clampInt_spec 1 32 h32 1).2.2.2 le_rfl h32,
      (clampInt_spec 1 32 h32 1).2.2.2 le_rfl h32⟩
  · intro v hv hlt
    rw [hv]
    by_cases hv0 : v = 0
    · have h1 : jsOrNumber (some v) 1 = 1 := by simp [jsOrNumber, hv0]
      rw [h1]
      exact ⟨(clampInt_spec 1 5 h5 1).2.2.2 le_rfl h5,
        (clampInt_spec 1 32 h32 1).2.2.2 le_rfl h32,
        (clampInt_spec 1 32 h32 1).2.2.2 le_rfl h32⟩
    · have h1 : jsOrNumber (some v) 1 = v := by simp [jsOrNumber, hv0]
      rw [h1]
      exact ⟨(clampInt_spec 1 5 h5 v).2.2.1 hlt,
        (clampInt_spec 1 32 h32 v).2.2.1 hlt,
        (clampInt_spec 1 32 h32 v).2.2.1 hlt⟩
  · intro v hv h1v hv5
    rw [hv]
    have hv0 : v ≠ 0 := by omega
    have h1 : jsOrNumber (some v) 1 = v := by simp [jsOrNumber, hv0]
    rw [h1]
    exact (clampInt_spec 1 5 h5 v).2.2.2 h1v hv5
  · intro v hv h1v hv32
    rw [hv]
    have hv0 : v ≠ 0 := by omega
    have h1 : jsOrNumber (some v) 1 = v := by simp [jsOrNumber, hv0]
    rw [h1]
    exact ⟨(clampInt_spec 1 32 h32 v).2.2.2 h1v hv32,
      (clampInt_spec 1 32 h32 v).2.2.2 h1v hv32⟩

/-- Witness for C10: a pass-through value and a clamped value. -/
theorem settings_save_clamps_witness :
    normalizedUploadConcurrency "3" = 3 ∧ normalizedAria2cConnections "20" = 20 :=
  ⟨(settings_save_clamps "3").2.2.2.2.2.1 3 (by decide) (by decide) (by decide),
    ((settings_save_clamps "20").2.2.2.2.2.2 20 (by decide) (by decide) (by decide)).1⟩

lemma validateSelectedParts_valid :
    ∀ (i : Nat) (l : List PartConfig),
      (validateSelectedParts i l).valid = true →
      ∀ part ∈ l,
        isValidTimeFormat part.startTime = true ∧ isValidTimeFormat part.endTime = true ∧
        (part.startTime ≠ "" → part.endTime ≠ "" →
          timeToSeconds part.startTime < timeToSeconds part.endTime) := by
  intro i l
  induction l generalizing i with
  | nil => intro _ part hp; simp at hp
  | cons p rest ih =>
    intro h part hp
    simp only [validateSelectedParts] at h
    split_ifs at h with h1 h2 h3 h4
    · rcases List.mem_cons.mp hp with rfl | hp2
      · refine ⟨?_, ?_, fun _ _ => lt_of_not_le h4⟩
        · cases hb : isValidTimeFormat part.startTime with
          | false => exact absurd hb h1
          | true => rfl
        · cases hb : isValidTimeFormat part.endTime with
          | false => exact absurd hb h2
          | true => rfl
      · exact ih (i + 1) h part hp2
    · rcases List.mem_cons.mp hp with rfl | hp2
      · refine ⟨?_, ?_, fun hs he => absurd ⟨hs, he⟩ h3⟩
        · cases hb : isValidTimeFormat part.startTime with
          | false => exact absurd hb h1
          | true => rfl
        · cases hb : isValidTimeFormat part.endTime with
          | false => exact absurd hb h2
          | true => rfl
      · exact ih (i + 1) h part hp2

lemma timeToSeconds_of_bad_split (s : String) (h : (jsSplit ':' s).length ≠ 3) :
    timeToSeconds s = 0 := by
  by_cases hs : s = ""
  · subst hs; rfl
  · simp only [timeToSeconds, if_neg hs]
    rw [if_pos (Or.inl (by simpa using h))]

lemma timeToSeconds_of_nan_part (s : String)
    (h : ((jsSplit ':' s).map jsNumberOfString).any (fun p => p.isNone) = true) :
    timeToSeconds s = 0 := by
  by_cases hs : s = ""
  · subst hs; rfl
  · simp only [timeToSeconds, if_neg hs]
    rw [if_pos (Or.inr h)]

lemma timeToSeconds_of_numeric_parts (s : String) (hh mm ss : Int)
    (hmap : (jsSplit ':' s).map jsNumberOfString = [some hh, some mm, some ss]) :
    timeToSeconds s = 3600 * hh + 60 * mm + ss := by
  have hs : s ≠ "" := by
    intro e
    subst e
    have hlen := congrArg List.length hmap
    rw [show jsSplit ':' "" = [""] from rfl] at hlen
    simp at hlen
  simp only [timeToSeconds, if_neg hs]
  rw [hmap]
  rw [if_neg (by simp)]
  simp only [List.getD, List.get?_cons_zero, List.get?_cons_succ, Option.getD_some]
  ring

lemma validateIntegrationForm_valid_parts {f : IntegrationForm}
    (h : (validateIntegrationForm f).valid = true) :
    (validateSelectedParts 0 f.selectedPartsConfig).valid = true := by
  delta validateIntegrationForm at h
  by_cases c1 : f.selectedCount = 0
  · rw [if_pos c1] at h; exact absurd h (by decide)
  rw [if_neg c1] at h
  by_cases c2 : f.downloadConfig.resolution = ""
  · rw [if_pos c2] at h; exact absurd h (by decide)
  rw [if_neg c2] at h
  by_cases c3 : f.downloadConfig.codec = ""
  · rw [if_pos c3] at h; exact absurd h (by decide)
  rw [if_neg c3] at h
  by_cases c4 : f.downloadConfig.format = ""
  · rw [if_pos c4] at h; exact absurd h (by decide)
  rw [if_neg c4] at h
  by_cases c5 : jsTrim f.submissionConfig.title = ""
  · rw [if_pos c5] at h; exact absurd h (by decide)
  rw [if_neg c5] at h
  by_cases c6 : 80 < f.submissionConfig.title.length
  · rw [if_pos c6] at h; exact absurd h (by decide)
  rw [if_neg c6] at h
  by_cases c7 : f.submissionConfig.partitionId = ""
  · rw [if_pos c7] at h; exact absurd h (by decide)
  rw [if_neg c7] at h
  by_cases c8 : f.submissionConfig.videoType = ""
  · rw [if_pos c8] at h; exact absurd h (by decide)
  rw [if_neg c8] at h
  by_cases c9 : f.submissionConfig.description ≠ "" ∧ 2000 < f.submissionConfig.description.length
  · rw [if_pos c9] at h; exact absurd h (by decide)
  rw [if_neg c9] at h
  simp only [] at h
  by_cases c10 :
      (if jsTrim f.tagInput ≠ "" then f.tags ++ [jsTrim f.tagInput]
        else f.tags).eraseDups.length = 0
  · rw [if_pos c10] at h; exact absurd h (by decide)
  rw [if_neg c10] at h
  by_cases c11 : f.segmentationEnabled = true
  · rw [if_pos c11] at h
    by_cases c12 : f.workflowConfig.segmentationConfig.segmentDurationSeconds < 30 ∨
        600 < f.workflowConfig.segmentationConfig.segmentDurationSeconds
    · rw [if_pos c12] at h; exact absurd h (by decide)
    · rw [if_neg c12] at h; exact h
  · rw [if_neg c11] at h; exact h

/-- C6: when `validateIntegrationForm` accepts a form, every selected part's
non-empty `startTime`/`endTime` matches the HH:MM:SS pattern (hour values
0-23, minutes and seconds 00-59) and, whenever both are non-empty,
`timeToSeconds startTime < timeToSeconds endTime`; `timeToSeconds` returns 0
on empty or malformed input and `3600*h + 60*m + s` on a numeric `h:m:s`
split. -/
theorem validateIntegrationForm_trim_time_contract (f : IntegrationForm)
    (h : (validateIntegrationForm f).valid = true) :
    (∀ part ∈ f.selectedPartsConfig,
        isValidTimeFormat part.startTime = true ∧ isValidTimeFormat part.endTime = true ∧
        (part.startTime ≠ "" → part.endTime ≠ "" →
          timeToSeconds part.startTime < timeToSeconds part.endTime)) ∧
    timeToSeconds "" = 0 ∧
    (∀ s : String, (jsSplit ':' s).length ≠ 3 → timeToSeconds s = 0) ∧
    (∀ s : String,
      ((jsSplit ':' s).map jsNumberOfString).any (fun p => p.isNone) = true →
      timeToSeconds s = 0) ∧
    (∀ (s : String) (hh mm ss : Int),
      (jsSplit ':' s).map jsNumberOfString = [some hh, some mm, some ss] →
      timeToSeconds s = 3600 * hh + 60 * mm + ss) :=
  ⟨validateSelectedParts_valid 0 f.selectedPartsConfig
      (validateIntegrationForm_valid_parts h),
    rfl, timeToSeconds_of_bad_split, timeToSeconds_of_nan_part,
    timeToSeconds_of_numeric_parts⟩

/-- A form every check of `validateIntegrationForm` accepts. -/
def sampleIntegrationForm : IntegrationForm where
  selectedCount := 1
  downloadConfig := { resolution := "80", codec := "avc1.640032", format := "dash" }
  submissionConfig :=
    { title := "标题", description := "", partitionId := "17", videoType := "ORIGINAL" }
  tags := ["tag"]
  tagInput := ""
  segmentationEnabled := true
  workflowConfig :=
    { segmentationConfig := { segmentDurationSeconds := 133, preserveOriginal := true } }
  selectedPartsConfig := [{ startTime := "00:00:10", endTime := "00:02:00" }]

/-- Witness for C6 on a concrete accepted form. -/
theorem validateIntegrationForm_trim_time_contract_witness :
    isValidTimeFormat "00:00:10" = true ∧
    timeToSeconds "00:00:10" < timeToSeconds "00:02:00" :=
  ⟨((validateIntegrationForm_trim_time_contract sampleIntegrationForm (by decide)).1
      { startTime := "00:00:10", endTime := "00:02:00" } (by decide)).1,
    ((validateIntegrationForm_trim_time_contract sampleIntegrationForm (by decide)).1
      { startTime := "00:00:10", endTime := "00:02:00" } (by decide)).2.2 (by decide) (by decide)⟩

/-- The integration form with the configured segment duration replaced. -/
def withSegDuration (f : IntegrationForm) (d : Int) : IntegrationForm :=
  { f with workflowConfig :=
      { segmentationConfig :=
          { segmentDurationSeconds := d,
            preserveOriginal := f.workflowConfig.segmentationConfig.preserveOriginal } } }

/-- C9: with the segmentation toggle on, `validateIntegrationForm` rejects
every configured segment duration below 30 or above 600 seconds; within
`[30, 600]` the duration never changes the validation outcome.  The 30-600
bound appears only in the code; the spec gives 133 only as an example. -/
theorem validate_segment_duration_bounds (f : IntegrationForm) :
    (f.segmentationEnabled = true →
      (f.workflowConfig.segmentationConfig.segmentDurationSeconds < 30 ∨
        600 < f.workflowConfig.segmentationConfig.segmentDurationSeconds) →
      (validateIntegrationForm f).valid = false) ∧
    (∀ d1 d2 : Int, 30 ≤ d1 → d1 ≤ 600 → 30 ≤ d2 → d2 ≤ 600 →
      validateIntegrationForm (withSegDuration f d1) =
        validateIntegrationForm (withSegDuration f d2)) := by
  constructor
  · intro hen hout
    delta validateIntegrationForm
    by_cases c1 : f.selectedCount = 0
    · rw [if_pos c1]
    rw [if_neg c1]
    by_cases c2 : f.downloadConfig.resolution = ""
    · rw [if_pos c2]
    rw [if_neg c2]
    by_cases c3 : f.downloadConfig.codec = ""
    · rw [if_pos c3]
    rw [if_neg c3]
    by_cases c4 : f.downloadConfig.format = ""
    · rw [if_pos c4]
    rw [if_neg c4]
    by_cases c5 : jsTrim f.submissionConfig.title = ""
    · rw [if_pos c5]
    rw [if_neg c5]
    by_cases c6 : 80 < f.submissionConfig.title.length
    · rw [if_pos c6]
    rw [if_neg c6]
    by_cases c7 : f.submissionConfig.partitionId = ""
    · rw [if_pos c7]
    rw [if_neg c7]
    by_cases c8 : f.submissionConfig.videoType = ""
    · rw [if_pos c8]
    rw [if_neg c8]
    by_cases c9 : f.submissionConfig.description ≠ "" ∧
        2000 < f.submissionConfig.description.length
    · rw [if_pos c9]
    rw [if_neg c9]
    simp only []
    by_cases c10 :
        (if jsTrim f.tagInput ≠ "" then f.tags ++ [jsTrim f.tagInput]
          else f.tags).eraseDups.length = 0
    · rw [if_pos c10]
    rw [if_neg c10, if_pos hen, if_pos hout]
  · intro d1 d2 hd1 hd1' hd2 hd2'
    have hn1 : ¬((d1 : Int) < 30 ∨ 600 < d1) := by omega
    have hn2 : ¬((d2 : Int) < 30 ∨ 600 < d2) := by omega
    delta validateIntegrationForm
    dsimp only [withSegDuration]
    rw [if_neg hn1, if_neg hn2]

/-- Witness for C9: a rejected out-of-range duration and two accepted
in-range durations with equal outcomes. -/
theorem validate_segment_duration_bounds_witness :
    (validateIntegrationForm (withSegDuration sampleIntegrationForm 700)).valid = false ∧
    validateIntegrationForm (withSegDuration sampleIntegrationForm 30) =
      validateIntegrationForm (withSegDuration sampleIntegrationForm 600) :=
  ⟨(validate_segment_duration_bounds (withSegDuration sampleIntegrationForm 700)).1
      (by decide) (by decide),
    (validate_segment_duration_bounds sampleIntegrationForm).2 30 600
      (by decide) (by decide) (by decide) (by decide)⟩

end ReactionCut
